import Mathlib

/-!
Verification of `secp256k1_pubkey_scalar_mul`
(src/crypto/secp256k1/libsecp256k1/src/modules/ecdh/pubkey_scalar_mul.h).

The routine validates its arguments, loads the public point, parses the
32-byte big-endian scalar with overflow detection, rejects zero or
overflowing scalars, otherwise multiplies the point by the scalar with the
constant-time kernel, converts the Jacobian result to affine form,
normalizes and serializes both coordinates into the caller's 32-byte
output buffers, and finally clears the internal scalar copy on every
returning path.

The arithmetic library the routine calls into (scalar parsing, the
multiplication kernel, field normalization and serialization, the
projective-to-affine conversion, the pubkey loader and the illegal-argument
callback) is not part of the sources under verification; those collaborators
are modelled from the specification, which declares them external and
assumed correct.  The wrapper itself — argument checks, the rejection
guard, the order of normalize/serialize, which buffers are written on
which path, and the unconditional scalar wipe — is translated line by
line from the source.
-/

/-- The prime of the secp256k1 base field, `2^256 - 2^32 - 977`. -/
def secpP : Nat := 0xFFFFFFFFFFFFFFFFFFFFFFFFFFFFFFFFFFFFFFFFFFFFFFFFFFFFFFFEFFFFFC2F

/-- The order `n` of the secp256k1 group. -/
def secpN : Nat := 0xFFFFFFFFFFFFFFFFFFFFFFFFFFFFFFFEBAAEDCE6AF48A03BBFD25E8CD0364141

/-- x-coordinate of the standard secp256k1 generator, used as a concrete test point. -/
def gX : Nat := 0x79BE667EF9DCBBAC55A06295CE870B07029BFCDB2DCE28D959F2815B16F81798

/-- y-coordinate of the standard secp256k1 generator. -/
def gY : Nat := 0x483ADA7726A3C4655DA4FBFC0E1108A8FD17B448A68554199C47D08FFB10D4B8

/-- Big-endian byte serialization: `natToBytesBE k v` is the `k`-byte
big-endian encoding of `v mod 256^k`, most significant byte first. -/
def natToBytesBE : Nat → Nat → List Nat
  | 0, _ => []
  | k + 1, v => natToBytesBE k (v / 256) ++ [v % 256]

/-- The 32-byte big-endian encoding of a number, as written by `secp256k1_fe_get_b32`. -/
def nat_to_b32 (v : Nat) : List Nat := natToBytesBE 32 v

/-- The integer value of a big-endian byte string, as read by `secp256k1_scalar_set_b32`. -/
def b32_to_nat (l : List Nat) : Nat := l.foldl (fun acc b => acc * 256 + b) 0

/-- Fuel-bounded square-and-multiply modular exponentiation, used only to
give the modelled field inversion an executable definition. -/
def powModAux : Nat → Nat → Nat → Nat → Nat
  | 0, _, _, _ => 1
  | fuel + 1, b, e, m =>
    if e = 0 then 1
    else
      let r := powModAux fuel (b * b % m) (e / 2) m
      if e % 2 = 1 then r * b % m else r

/-- Modular inverse in the secp256k1 base field via Fermat exponentiation
(`a^(p-2) mod p`); 257 fuel steps cover the 256-bit exponent. -/
def invMod (a : Nat) : Nat := powModAux 257 (a % secpP) (secpP - 2) secpP

/-- Field addition mod `secpP`. -/
def fadd (a b : Nat) : Nat := (a + b) % secpP

/-- Field subtraction mod `secpP`. -/
def fsub (a b : Nat) : Nat := (a + (secpP - b % secpP)) % secpP

/-- Field multiplication mod `secpP`. -/
def fmul (a b : Nat) : Nat := a * b % secpP

/-- An affine point of the curve, or `none` for the point at infinity. -/
def AffPt : Type := Option (Nat × Nat)

/-- Textbook affine doubling on `y^2 = x^3 + 7` over the secp256k1 field;
the independent reference the multiplication result is compared against. -/
def ptDouble : AffPt → AffPt
  | none => none
  | some (x, y) =>
    if (2 * y) % secpP = 0 then none
    else
      let l := fmul (fmul 3 (fmul x x)) (invMod (2 * y))
      let x3 := fsub (fmul l l) ((2 * x) % secpP)
      some (x3, fsub (fmul l (fsub x x3)) y)

/-- Textbook affine chord-tangent addition, the reference group law. -/
def ptAdd : AffPt → AffPt → AffPt
  | none, none => none
  | none, some q => some (q.1 % secpP, q.2 % secpP)
  | some q, none => some (q.1 % secpP, q.2 % secpP)
  | some (x1, y1), some (x2, y2) =>
    if x1 % secpP = x2 % secpP then
      if (y1 + y2) % secpP = 0 then none
      else ptDouble (some (x1, y1))
    else
      let l := fmul (fsub y2 y1) (invMod (fsub x2 x1))
      let x3 := fsub (fsub (fmul l l) x1) x2
      some (x3, fsub (fmul l (fsub x1 x3)) y1)

/-- Right-to-left binary double-and-add loop of the reference scalar
multiplication; 256 fuel steps cover any 256-bit scalar. -/
def scalarMulLoop : Nat → AffPt → AffPt → Nat → AffPt
  | 0, acc, _, _ => acc
  | fuel + 1, acc, base, k =>
    if k = 0 then acc
    else scalarMulLoop fuel (if k % 2 = 1 then ptAdd acc base else acc) (ptDouble base) (k / 2)

/-- An internal affine group element (`secp256k1_ge`): two field-element
representations.  Affine elements never denote the identity. -/
structure GE where
  x : Nat
  y : Nat
deriving DecidableEq

/-- An internal Jacobian group element (`secp256k1_gej`); `z = 0` encodes infinity. -/
structure GEJ where
  x : Nat
  y : Nat
  z : Nat
deriving DecidableEq

/-- Independent reference scalar multiplication `k·Q` by affine double-and-add. -/
def refScalarMul (q : GE) (k : Nat) : AffPt := scalarMulLoop 256 none (some (q.x, q.y)) k

/-- The affine x-coordinate of a reference result (0 for the never-occurring infinity case). -/
def affX : AffPt → Nat
  | none => 0
  | some q => q.1

/-- The affine y-coordinate of a reference result. -/
def affY : AffPt → Nat
  | none => 0
  | some q => q.2

/-- Lift an affine point to Jacobian coordinates with `z = 1` (`z = 0` for infinity). -/
def jacOf : AffPt → GEJ
  | none => ⟨1, 1, 0⟩
  | some q => ⟨q.1, q.2, 1⟩

/-- On-curve predicate for the secp256k1 equation `y^2 = x^3 + 7` over the base field. -/
def onCurve (q : GE) : Prop := q.y * q.y % secpP = (q.x * q.x % secpP * q.x + 7) % secpP

/-- The memory regions a call can observe or touch: the read-only context
object and caller point and scalar buffers, the two 32-byte output buffers,
and the cell backing the local `secp256k1_scalar s`. -/
structure CallState where
  ctx_obj : Nat
  point_buf : GE
  scalar_buf : List Nat
  x_buf : List Nat
  y_buf : List Nat
  s_cell : Nat
deriving DecidableEq

/-- The caller-observable effects of one returning call: the C return
value, the final memory state, and ghost flags recording whether the
multiplication kernel, the affine conversion and the serialization were
invoked. -/
structure MulEffects where
  ret : Nat
  st : CallState
  called_ecmult : Bool
  called_ge_set_gej : Bool
  called_fe_get_b32 : Bool
deriving DecidableEq

/-- Outcome of a call: either the illegal-argument handler fired and the
call never returns (`fatal`), or the call returns with its effects. -/
inductive CallOutcome where
  | fatal : CallOutcome
  | normal : MulEffects → CallOutcome
deriving DecidableEq

/-- Modelled from the spec: `secp256k1_pubkey_load` (not under src/)
deserializes the caller's public-key object into the internal affine
representation; the spec assumes it correct, so the point buffer is
modelled directly as the loaded group element. -/
def secp256k1_pubkey_load (st : CallState) : GE := st.point_buf

/-- Modelled from the spec: `secp256k1_scalar_set_b32` (not under src/)
parses 32 big-endian bytes into a scalar reduced mod the group order and
reports whether the raw value was `≥ n` (overflow). -/
def secp256k1_scalar_set_b32 (l : List Nat) : Nat × Bool :=
  (b32_to_nat l % secpN, decide (secpN ≤ b32_to_nat l))

/-- Modelled from the spec: `secp256k1_scalar_is_zero` (not under src/) tests for zero. -/
def secp256k1_scalar_is_zero (s : Nat) : Bool := s == 0

/-- Modelled from the spec: `secp256k1_scalar_clear` (not under src/)
overwrites the scalar memory with zero. -/
def secp256k1_scalar_clear (_s : Nat) : Nat := 0

/-- Modelled from the spec: `secp256k1_ecmult_const` (not under src/) is the
constant-time kernel whose contract is to compute `s·P`; it is modelled as
the reference scalar multiple, returned in Jacobian form. -/
def secp256k1_ecmult_const (q : GE) (s : Nat) : GEJ := jacOf (refScalarMul q s)

/-- Modelled from the spec: `secp256k1_ge_set_gej` (not under src/) converts
a Jacobian point to affine form by one field inversion and multiplications
(`x = X/Z^2`, `y = Y/Z^3`). -/
def secp256k1_ge_set_gej (j : GEJ) : GE :=
  let zi := invMod j.z
  let zi2 := zi * zi % secpP
  let zi3 := zi2 * zi % secpP
  ⟨j.x * zi2 % secpP, j.y * zi3 % secpP⟩

/-- Modelled from the spec: `secp256k1_fe_normalize` (not under src/)
reduces a field-element representation to its unique canonical value. -/
def secp256k1_fe_normalize (a : Nat) : Nat := a % secpP

/-- Modelled from the spec: `secp256k1_fe_get_b32` (not under src/) writes
a normalized field element as 32 big-endian bytes. -/
def secp256k1_fe_get_b32 (a : Nat) : List Nat := nat_to_b32 a

/-- The fixed-shape normalize-then-serialize path the source applies to
each result coordinate (lines 32-35 of pubkey_scalar_mul.h). -/
def serCoord (a : Nat) : List Nat := secp256k1_fe_get_b32 (secp256k1_fe_normalize a)

/-- Shallow embedding of `secp256k1_pubkey_scalar_mul`.  The four booleans
state whether the corresponding pointer argument is NULL; `ARG_CHECK` on a
NULL argument invokes the context's illegal-argument handler, modelled from
the spec as fatal (the call does not return).  Otherwise the point is
loaded, the scalar parsed with overflow detection, zero or overflowing
scalars rejected with `ret = 0`, and on the valid path the constant-time
multiplication, affine conversion, coordinate normalization and
serialization run and both output buffers are overwritten; the internal
scalar cell is cleared on every returning path. -/
def secp256k1_pubkey_scalar_mul (x_res_null y_res_null point_null scalar_null : Bool)
    (st0 : CallState) : CallOutcome :=
  if x_res_null then CallOutcome.fatal
  else if y_res_null then CallOutcome.fatal
  else if point_null then CallOutcome.fatal
  else if scalar_null then CallOutcome.fatal
  else
    let pt := secp256k1_pubkey_load st0
    let sv := secp256k1_scalar_set_b32 st0.scalar_buf
    if sv.2 || secp256k1_scalar_is_zero sv.1 then
      CallOutcome.normal ⟨0, { st0 with s_cell := secp256k1_scalar_clear sv.1 }, false, false, false⟩
    else
      let res := secp256k1_ecmult_const pt sv.1
      let pt2 := secp256k1_ge_set_gej res
      let xb := secp256k1_fe_get_b32 (secp256k1_fe_normalize pt2.x)
      let yb := secp256k1_fe_get_b32 (secp256k1_fe_normalize pt2.y)
      CallOutcome.normal
        ⟨1, { st0 with x_buf := xb, y_buf := yb, s_cell := secp256k1_scalar_clear sv.1 },
          true, true, true⟩

instance (q : GE) : Decidable (onCurve q) := by
  unfold onCurve
  exact inferInstance

lemma secpP_pos : 0 < secpP := by decide

lemma natToBytesBE_length : ∀ k v, (natToBytesBE k v).length = k := by
  intro k
  induction k with
  | zero => intro v; rfl
  | succ k ih => intro v; simp [natToBytesBE, ih]

lemma foldl_natToBytesBE (k : Nat) : ∀ v a,
    List.foldl (fun acc b => acc * 256 + b) a (natToBytesBE k v) = a * 256 ^ k + v % 256 ^ k := by
  induction k with
  | zero => intro v a; simp [natToBytesBE, Nat.mod_one]
  | succ k ih =>
      intro v a
      have hsplit : v % 256 ^ (k + 1) = 256 * (v / 256 % 256 ^ k) + v % 256 := by
        rw [pow_succ, mul_comm (256 ^ k) 256, Nat.mod_mul]
        ring
      simp only [natToBytesBE, List.foldl_append, List.foldl_cons, List.foldl_nil, ih]
      rw [hsplit, pow_succ]
      ring

lemma b32_to_nat_nat_to_b32 (v : Nat) : b32_to_nat (nat_to_b32 v) = v % 2 ^ 256 := by
  have h : (256 : Nat) ^ 32 = 2 ^ 256 := by norm_num
  simpa [b32_to_nat, nat_to_b32, h] using foldl_natToBytesBE 32 v 0

/-- A reference point whose coordinates, if affine, are fully reduced mod the field prime. -/
def ptRed : AffPt → Prop
  | none => True
  | some q => q.1 < secpP ∧ q.2 < secpP

lemma fsub_lt (a b : Nat) : fsub a b < secpP := Nat.mod_lt _ secpP_pos

lemma ptRed_ptDouble (q : AffPt) : ptRed (ptDouble q) := by
  match q with
  | none => exact trivial
  | some (x, y) =>
      simp only [ptDouble]
      by_cases h : (2 * y) % secpP = 0
      · rw [if_pos h]
        exact trivial
      · rw [if_neg h]
        exact ⟨fsub_lt _ _, fsub_lt _ _⟩

lemma ptRed_ptAdd (q r : AffPt) : ptRed (ptAdd q r) := by
  match q, r with
  | none, none => exact trivial
  | none, some (a, b) => exact ⟨Nat.mod_lt _ secpP_pos, Nat.mod_lt _ secpP_pos⟩
  | some (a, b), none => exact ⟨Nat.mod_lt _ secpP_pos, Nat.mod_lt _ secpP_pos⟩
  | some (x1, y1), some (x2, y2) =>
      simp only [ptAdd]
      by_cases h1 : x1 % secpP = x2 % secpP
      · rw [if_pos h1]
        by_cases h2 : (y1 + y2) % secpP = 0
        · rw [if_pos h2]
          exact trivial
        · rw [if_neg h2]
          exact ptRed_ptDouble (some (x1, y1))
      · rw [if_neg h1]
        exact ⟨fsub_lt _ _, fsub_lt _ _⟩

lemma ptRed_scalarMulLoop (fuel : Nat) : ∀ acc base k, ptRed acc →
    ptRed (scalarMulLoop fuel acc base k) := by
  induction fuel with
  | zero => intro acc base k h; exact h
  | succ fuel ih =>
      intro acc base k h
      unfold scalarMulLoop
      split
      · exact h
      · apply ih
        split
        · exact ptRed_ptAdd acc base
        · exact h

lemma ptRed_refScalarMul (q : GE) (k : Nat) : ptRed (refScalarMul q k) :=
  ptRed_scalarMulLoop 256 none (some (q.x, q.y)) k trivial

set_option maxRecDepth 40000 in
lemma invMod_zero : invMod 0 = 0 := by decide

set_option maxRecDepth 40000 in
lemma invMod_one : invMod 1 = 1 := by decide

lemma ge_set_gej_jacOf (r : AffPt) (hr : ptRed r) :
    secp256k1_ge_set_gej (jacOf r) = ⟨affX r, affY r⟩ := by
  match r with
  | none =>
      show secp256k1_ge_set_gej ⟨1, 1, 0⟩ = ⟨0, 0⟩
      simp [secp256k1_ge_set_gej, invMod_zero, affX, affY]
  | some (a, b) =>
      obtain ⟨ha, hb⟩ := hr
      show secp256k1_ge_set_gej ⟨a, b, 1⟩ = ⟨a, b⟩
      simp only [secp256k1_ge_set_gej, invMod_one]
      have h1 : (1 : Nat) * 1 % secpP = 1 := by decide
      simp [h1, Nat.mod_eq_of_lt ha, Nat.mod_eq_of_lt hb]

lemma affX_lt (r : AffPt) (hr : ptRed r) : affX r < secpP := by
  match r with
  | none => exact secpP_pos
  | some (a, b) => exact hr.1

lemma affY_lt (r : AffPt) (hr : ptRed r) : affY r < secpP := by
  match r with
  | none => exact secpP_pos
  | some (a, b) => exact hr.2

lemma mul_eq_fail (st0 : CallState)
    (hp : secpN ≤ b32_to_nat st0.scalar_buf ∨ b32_to_nat st0.scalar_buf % secpN = 0) :
    secp256k1_pubkey_scalar_mul false false false false st0 =
      CallOutcome.normal ⟨0, { st0 with s_cell := 0 }, false, false, false⟩ := by
  have hg : ((secp256k1_scalar_set_b32 st0.scalar_buf).2
      || secp256k1_scalar_is_zero (secp256k1_scalar_set_b32 st0.scalar_buf).1) = true := by
    simp only [secp256k1_scalar_set_b32, secp256k1_scalar_is_zero, Bool.or_eq_true,
      decide_eq_true_eq, beq_iff_eq]
    exact hp
  simp only [secp256k1_pubkey_scalar_mul, Bool.false_eq_true, if_false, hg, if_true,
    secp256k1_scalar_clear]

lemma mul_eq_succ (st0 : CallState)
    (hp : ¬ (secpN ≤ b32_to_nat st0.scalar_buf ∨ b32_to_nat st0.scalar_buf % secpN = 0)) :
    secp256k1_pubkey_scalar_mul false false false false st0 =
      CallOutcome.normal
        ⟨1,
          { st0 with
              x_buf := serCoord (secp256k1_ge_set_gej
                (secp256k1_ecmult_const st0.point_buf (b32_to_nat st0.scalar_buf % secpN))).x,
              y_buf := serCoord (secp256k1_ge_set_gej
                (secp256k1_ecmult_const st0.point_buf (b32_to_nat st0.scalar_buf % secpN))).y,
              s_cell := 0 },
          true, true, true⟩ := by
  have hg : (decide (secpN ≤ b32_to_nat st0.scalar_buf)
      || secp256k1_scalar_is_zero (b32_to_nat st0.scalar_buf % secpN)) = false := by
    simp only [secp256k1_scalar_is_zero, Bool.or_eq_false_iff,
      decide_eq_false_iff_not, beq_eq_false_iff_ne, ne_eq]
    exact ⟨fun h => hp (Or.inl h), fun h => hp (Or.inr h)⟩
  simp only [secp256k1_pubkey_scalar_mul, Bool.false_eq_true, if_false,
    secp256k1_pubkey_load, secp256k1_scalar_set_b32, secp256k1_scalar_clear, serCoord, hg]

lemma mul_null_fatal (xn yn pn sn : Bool) (st0 : CallState)
    (h : xn = true ∨ yn = true ∨ pn = true ∨ sn = true) :
    secp256k1_pubkey_scalar_mul xn yn pn sn st0 = CallOutcome.fatal := by
  cases xn <;> cases yn <;> cases pn <;> cases sn <;>
    simp_all [secp256k1_pubkey_scalar_mul]

lemma mul_normal_nonnull (xn yn pn sn : Bool) (st0 : CallState) (e : MulEffects)
    (h : secp256k1_pubkey_scalar_mul xn yn pn sn st0 = CallOutcome.normal e) :
    xn = false ∧ yn = false ∧ pn = false ∧ sn = false := by
  cases xn <;> cases yn <;> cases pn <;> cases sn <;>
    simp_all [mul_null_fatal]

/-- A concrete call state: the generator point, scalar value 2. -/
def stTwo : CallState :=
  ⟨0, ⟨gX, gY⟩, nat_to_b32 2, List.replicate 32 0, List.replicate 32 0, 7⟩

/-- A concrete call state: the generator point, all-zero scalar bytes. -/
def stZero : CallState := ⟨0, ⟨gX, gY⟩, List.replicate 32 0, [], [], 11⟩

/-- A concrete call state: the generator point, scalar bytes encoding exactly the group order. -/
def stOrder : CallState := ⟨0, ⟨gX, gY⟩, nat_to_b32 secpN, [], [], 5⟩

/-- A concrete call state: the generator point, scalar value 1. -/
def stOne : CallState :=
  ⟨0, ⟨gX, gY⟩, nat_to_b32 1, List.replicate 32 0, List.replicate 32 0, 9⟩

/-- C1: for a valid on-curve, non-identity point and a 32-byte scalar whose
value lies in `[1, n-1]`, the call with non-null arguments returns 1 and
writes into the two output buffers exactly the big-endian affine
coordinates of `s·P` as computed by the independent reference scalar
multiplication (affine points are always non-identity in this
representation). -/
theorem mul_valid_scalar_correct (st0 : CallState)
    (hcurve : onCurve st0.point_buf)
    (hlen : st0.scalar_buf.length = 32)
    (h1 : 1 ≤ b32_to_nat st0.scalar_buf)
    (h2 : b32_to_nat st0.scalar_buf < secpN) :
    secp256k1_pubkey_scalar_mul false false false false st0 =
      CallOutcome.normal
        ⟨1,
          { st0 with
              x_buf := nat_to_b32 (affX (refScalarMul st0.point_buf (b32_to_nat st0.scalar_buf))),
              y_buf := nat_to_b32 (affY (refScalarMul st0.point_buf (b32_to_nat st0.scalar_buf))),
              s_cell := 0 },
          true, true, true⟩ := by
  have hmod : b32_to_nat st0.scalar_buf % secpN = b32_to_nat st0.scalar_buf :=
    Nat.mod_eq_of_lt h2
  have hnp : ¬ (secpN ≤ b32_to_nat st0.scalar_buf ∨ b32_to_nat st0.scalar_buf % secpN = 0) := by
    rintro (hc | hc)
    · exact absurd hc (Nat.not_le.mpr h2)
    · rw [hmod] at hc
      omega
  rw [mul_eq_succ st0 hnp]
  have hr := ptRed_refScalarMul st0.point_buf (b32_to_nat st0.scalar_buf)
  simp only [hmod, secp256k1_ecmult_const, ge_set_gej_jacOf _ hr, serCoord,
    secp256k1_fe_normalize, secp256k1_fe_get_b32,
    Nat.mod_eq_of_lt (affX_lt _ hr), Nat.mod_eq_of_lt (affY_lt _ hr)]

set_option maxRecDepth 100000 in
/-- Witness for C1: the generator is on the curve and multiplying it by the
scalar 2 succeeds with the reference coordinates in the output buffers. -/
theorem mul_valid_scalar_correct_witness :
    secp256k1_pubkey_scalar_mul false false false false stTwo =
      CallOutcome.normal
        ⟨1,
          { stTwo with
              x_buf := nat_to_b32 (affX (refScalarMul stTwo.point_buf (b32_to_nat stTwo.scalar_buf))),
              y_buf := nat_to_b32 (affY (refScalarMul stTwo.point_buf (b32_to_nat stTwo.scalar_buf))),
              s_cell := 0 },
          true, true, true⟩ :=
  mul_valid_scalar_correct stTwo (by decide) (by decide) (by decide) (by decide)

/-- C2: on every path on which the call returns — success or
domain-validation failure — the cell backing the internal secret scalar
holds zero afterwards; a null-argument call is fatal and never returns. -/
theorem scalar_wiped_on_return (xn yn pn sn : Bool) (st0 : CallState) (e : MulEffects)
    (h : secp256k1_pubkey_scalar_mul xn yn pn sn st0 = CallOutcome.normal e) :
    e.st.s_cell = 0 := by
  obtain ⟨hx, hy, hp2, hs⟩ := mul_normal_nonnull xn yn pn sn st0 e h
  subst hx; subst hy; subst hp2; subst hs
  by_cases hp : secpN ≤ b32_to_nat st0.scalar_buf ∨ b32_to_nat st0.scalar_buf % secpN = 0
  · rw [mul_eq_fail st0 hp] at h
    injection h with h2
    subst h2
    rfl
  · rw [mul_eq_succ st0 hp] at h
    injection h with h2
    subst h2
    rfl

set_option maxRecDepth 40000 in
/-- Witness for C2: after the rejected all-zero-scalar call the scalar cell is zero. -/
theorem scalar_wiped_on_return_witness :
    (⟨0, { stZero with s_cell := 0 }, false, false, false⟩ : MulEffects).st.s_cell = 0 :=
  scalar_wiped_on_return false false false false stZero
    ⟨0, { stZero with s_cell := 0 }, false, false, false⟩ (by decide)

/-- C3: with non-null arguments and a valid on-curve point, the call
reports failure (returns 0) exactly when the 32-byte scalar value is 0 or
at least the group order; in particular scalar `n` fails and scalar `n-1`
succeeds. -/
theorem mul_ret_zero_iff (st0 : CallState) (e : MulEffects)
    (hcurve : onCurve st0.point_buf)
    (hlen : st0.scalar_buf.length = 32)
    (h : secp256k1_pubkey_scalar_mul false false false false st0 = CallOutcome.normal e) :
    e.ret = 0 ↔ (b32_to_nat st0.scalar_buf = 0 ∨ secpN ≤ b32_to_nat st0.scalar_buf) := by
  by_cases hp : secpN ≤ b32_to_nat st0.scalar_buf ∨ b32_to_nat st0.scalar_buf % secpN = 0
  · rw [mul_eq_fail st0 hp] at h
    injection h with h2
    subst h2
    simp only [true_iff]
    rcases hp with hp | hp
    · exact Or.inr hp
    · by_cases hlt : b32_to_nat st0.scalar_buf < secpN
      · rw [Nat.mod_eq_of_lt hlt] at hp
        exact Or.inl hp
      · exact Or.inr (Nat.le_of_not_lt hlt)
  · rw [mul_eq_succ st0 hp] at h
    injection h with h2
    subst h2
    push_neg at hp
    obtain ⟨hlt, hnz⟩ := hp
    rw [Nat.mod_eq_of_lt hlt] at hnz
    simp only [show (1 : Nat) ≠ 0 from one_ne_zero, false_iff]
    rintro (hc | hc)
    · exact hnz hc
    · exact absurd hc (Nat.not_le.mpr hlt)

set_option maxRecDepth 40000 in
/-- Witness for C3: the boundary call whose scalar encodes exactly the
group order returns 0, and the iff correctly classifies it. -/
theorem mul_ret_zero_iff_witness :
    (⟨0, { stOrder with s_cell := 0 }, false, false, false⟩ : MulEffects).ret = 0 ↔
      (b32_to_nat stOrder.scalar_buf = 0 ∨ secpN ≤ b32_to_nat stOrder.scalar_buf) :=
  mul_ret_zero_iff stOrder ⟨0, { stOrder with s_cell := 0 }, false, false, false⟩
    (by decide) (by decide) (by decide)

/-- C4: the call is all-or-nothing on the output buffers: a successful
return has fully (re)written both 32-byte output buffers, and a failing
return leaves both output buffers exactly as they were before the call. -/
theorem all_or_nothing (st0 : CallState) (e : MulEffects)
    (h : secp256k1_pubkey_scalar_mul false false false false st0 = CallOutcome.normal e) :
    (e.ret = 1 ∧ e.st.x_buf.length = 32 ∧ e.st.y_buf.length = 32) ∨
      (e.ret = 0 ∧ e.st.x_buf = st0.x_buf ∧ e.st.y_buf = st0.y_buf) := by
  by_cases hp : secpN ≤ b32_to_nat st0.scalar_buf ∨ b32_to_nat st0.scalar_buf % secpN = 0
  · rw [mul_eq_fail st0 hp] at h
    injection h with h2
    subst h2
    exact Or.inr ⟨rfl, rfl, rfl⟩
  · rw [mul_eq_succ st0 hp] at h
    injection h with h2
    subst h2
    refine Or.inl ⟨rfl, ?_, ?_⟩
    · exact natToBytesBE_length 32 _
    · exact natToBytesBE_length 32 _

set_option maxRecDepth 40000 in
/-- Witness for C4: the rejected all-zero-scalar call leaves both output buffers untouched. -/
theorem all_or_nothing_witness :
    ((⟨0, { stZero with s_cell := 0 }, false, false, false⟩ : MulEffects).ret = 1 ∧
        (⟨0, { stZero with s_cell := 0 }, false, false, false⟩ : MulEffects).st.x_buf.length = 32 ∧
        (⟨0, { stZero with s_cell := 0 }, false, false, false⟩ : MulEffects).st.y_buf.length = 32) ∨
      ((⟨0, { stZero with s_cell := 0 }, false, false, false⟩ : MulEffects).ret = 0 ∧
        (⟨0, { stZero with s_cell := 0 }, false, false, false⟩ : MulEffects).st.x_buf = stZero.x_buf ∧
        (⟨0, { stZero with s_cell := 0 }, false, false, false⟩ : MulEffects).st.y_buf = stZero.y_buf) :=
  all_or_nothing stZero ⟨0, { stZero with s_cell := 0 }, false, false, false⟩ (by decide)

/-- C5: on success each result coordinate goes through the fixed
normalize-then-serialize path, emitting exactly 32 raw big-endian bytes
per coordinate — both coordinates, never a parity-compressed form — and
the emitted bytes depend only on the logical field value (two
representations congruent mod the field prime serialize identically,
and the bytes decode back to the canonical value). -/
theorem extraction_canonical (st0 : CallState) (e : MulEffects) (a b : Nat)
    (h : secp256k1_pubkey_scalar_mul false false false false st0 = CallOutcome.normal e)
    (hret : e.ret = 1)
    (hab : a % secpP = b % secpP) :
    serCoord a = serCoord b ∧
      (serCoord a).length = 32 ∧
      b32_to_nat (serCoord a) = a % secpP ∧
      e.st.x_buf = serCoord (secp256k1_ge_set_gej
        (secp256k1_ecmult_const st0.point_buf (b32_to_nat st0.scalar_buf % secpN))).x ∧
      e.st.y_buf = serCoord (secp256k1_ge_set_gej
        (secp256k1_ecmult_const st0.point_buf (b32_to_nat st0.scalar_buf % secpN))).y := by
  have hser : ∀ t : Nat, serCoord t = nat_to_b32 (t % secpP) := fun t => rfl
  refine ⟨?_, ?_, ?_, ?_⟩
  · rw [hser, hser, hab]
  · exact natToBytesBE_length 32 _
  · rw [hser, b32_to_nat_nat_to_b32]
    exact Nat.mod_eq_of_lt (lt_trans (Nat.mod_lt _ secpP_pos) (by norm_num [secpP]))
  · by_cases hp : secpN ≤ b32_to_nat st0.scalar_buf ∨ b32_to_nat st0.scalar_buf % secpN = 0
    · rw [mul_eq_fail st0 hp] at h
      injection h with h2
      subst h2
      simp at hret
    · rw [mul_eq_succ st0 hp] at h
      injection h with h2
      subst h2
      exact ⟨rfl, rfl⟩

set_option maxRecDepth 100000 in
/-- Witness for C5: a successful call with scalar 1 on the generator, with
two distinct representations of the generator's x-coordinate. -/
theorem extraction_canonical_witness :
    serCoord (gX + secpP) = serCoord gX ∧
      (serCoord (gX + secpP)).length = 32 ∧
      b32_to_nat (serCoord (gX + secpP)) = (gX + secpP) % secpP ∧
      (⟨1, { stOne with x_buf := nat_to_b32 gX, y_buf := nat_to_b32 gY, s_cell := 0 },
          true, true, true⟩ : MulEffects).st.x_buf =
        serCoord (secp256k1_ge_set_gej
          (secp256k1_ecmult_const stOne.point_buf (b32_to_nat stOne.scalar_buf % secpN))).x ∧
      (⟨1, { stOne with x_buf := nat_to_b32 gX, y_buf := nat_to_b32 gY, s_cell := 0 },
          true, true, true⟩ : MulEffects).st.y_buf =
        serCoord (secp256k1_ge_set_gej
          (secp256k1_ecmult_const stOne.point_buf (b32_to_nat stOne.scalar_buf % secpN))).y :=
  extraction_canonical stOne
    ⟨1, { stOne with x_buf := nat_to_b32 gX, y_buf := nat_to_b32 gY, s_cell := 0 },
      true, true, true⟩
    (gX + secpP) gX (by decide) (by decide) (by decide)

/-- C6: the two in-band failure causes are indistinguishable: a call whose
scalar reduces to zero and a call whose scalar overflows the group order
produce the same return value and the same (untouched) output-buffer
contents, given the buffers started out equal. -/
theorem failure_indistinguishable (st1 st2 : CallState) (e1 e2 : MulEffects)
    (hx : st1.x_buf = st2.x_buf) (hy : st1.y_buf = st2.y_buf)
    (h1z : b32_to_nat st1.scalar_buf % secpN = 0)
    (h2o : secpN ≤ b32_to_nat st2.scalar_buf)
    (h1 : secp256k1_pubkey_scalar_mul false false false false st1 = CallOutcome.normal e1)
    (h2 : secp256k1_pubkey_scalar_mul false false false false st2 = CallOutcome.normal e2) :
    e1.ret = e2.ret ∧ e1.st.x_buf = e2.st.x_buf ∧ e1.st.y_buf = e2.st.y_buf := by
  rw [mul_eq_fail st1 (Or.inr h1z)] at h1
  rw [mul_eq_fail st2 (Or.inl h2o)] at h2
  injection h1 with h1e
  injection h2 with h2e
  subst h1e
  subst h2e
  exact ⟨rfl, hx, hy⟩

set_option maxRecDepth 40000 in
/-- Witness for C6: the zero-scalar call and the order-scalar call yield
identical observable outcomes. -/
theorem failure_indistinguishable_witness :
    (⟨0, { stZero with s_cell := 0 }, false, false, false⟩ : MulEffects).ret =
        (⟨0, { stOrder with s_cell := 0 }, false, false, false⟩ : MulEffects).ret ∧
      (⟨0, { stZero with s_cell := 0 }, false, false, false⟩ : MulEffects).st.x_buf =
        (⟨0, { stOrder with s_cell := 0 }, false, false, false⟩ : MulEffects).st.x_buf ∧
      (⟨0, { stZero with s_cell := 0 }, false, false, false⟩ : MulEffects).st.y_buf =
        (⟨0, { stOrder with s_cell := 0 }, false, false, false⟩ : MulEffects).st.y_buf :=
  failure_indistinguishable stZero stOrder
    ⟨0, { stZero with s_cell := 0 }, false, false, false⟩
    ⟨0, { stOrder with s_cell := 0 }, false, false, false⟩
    (by decide) (by decide) (by decide) (by decide) (by decide) (by decide)

/-- C7: a null output buffer, point or scalar argument is a
programming-contract violation: the call invokes the context's
illegal-argument handler and is fatal, never producing a returnable
failure outcome. -/
theorem null_arg_fatal (xn yn pn sn : Bool) (st0 : CallState)
    (h : xn = true ∨ yn = true ∨ pn = true ∨ sn = true) :
    secp256k1_pubkey_scalar_mul xn yn pn sn st0 = CallOutcome.fatal ∧
      ∀ e : MulEffects, secp256k1_pubkey_scalar_mul xn yn pn sn st0 ≠ CallOutcome.normal e := by
  have hf := mul_null_fatal xn yn pn sn st0 h
  refine ⟨hf, fun e hc => ?_⟩
  rw [hf] at hc
  exact CallOutcome.noConfusion hc

/-- Witness for C7: the call with a null x output buffer is fatal. -/
theorem null_arg_fatal_witness :
    secp256k1_pubkey_scalar_mul true false false false stZero = CallOutcome.fatal ∧
      ∀ e : MulEffects,
        secp256k1_pubkey_scalar_mul true false false false stZero ≠ CallOutcome.normal e :=
  null_arg_fatal true false false false stZero (Or.inl rfl)

/-- A second concrete call state holding the same bytes as `stZero`, used
to instantiate determinism over two identical calls. -/
def stZeroCopy : CallState := ⟨0, ⟨gX, gY⟩, List.replicate 32 0, [], [], 11⟩

/-- C8: the operation is deterministic: two calls whose context, point,
scalar and buffer contents are byte-identical produce the same outcome —
the same return value and byte-identical output buffers. -/
theorem deterministic_same_inputs (xn yn pn sn : Bool) (st1 st2 : CallState)
    (hctx : st1.ctx_obj = st2.ctx_obj) (hpt : st1.point_buf = st2.point_buf)
    (hsc : st1.scalar_buf = st2.scalar_buf) (hxb : st1.x_buf = st2.x_buf)
    (hyb : st1.y_buf = st2.y_buf) (hcell : st1.s_cell = st2.s_cell) :
    secp256k1_pubkey_scalar_mul xn yn pn sn st1 =
      secp256k1_pubkey_scalar_mul xn yn pn sn st2 := by
  have hst : st1 = st2 := by
    cases st1
    cases st2
    simp_all
  rw [hst]

/-- Witness for C8: two byte-identical zero-scalar calls agree. -/
theorem deterministic_same_inputs_witness :
    secp256k1_pubkey_scalar_mul false false false false stZero =
      secp256k1_pubkey_scalar_mul false false false false stZeroCopy :=
  deterministic_same_inputs false false false false stZero stZeroCopy
    rfl rfl rfl rfl rfl rfl

/-- C9: the constant-time kernel runs exactly when the canonicalized
scalar is nonzero and did not overflow (raw value in `[1, n-1]`), and on
every input failing that guard the multiplication, the affine conversion
and the serialization are all skipped. -/
theorem ecmult_guarded (st0 : CallState) (e : MulEffects)
    (h : secp256k1_pubkey_scalar_mul false false false false st0 = CallOutcome.normal e) :
    (e.called_ecmult = true ↔
        (1 ≤ b32_to_nat st0.scalar_buf ∧ b32_to_nat st0.scalar_buf < secpN)) ∧
      ((b32_to_nat st0.scalar_buf % secpN = 0 ∨ secpN ≤ b32_to_nat st0.scalar_buf) →
        e.called_ecmult = false ∧ e.called_ge_set_gej = false ∧
          e.called_fe_get_b32 = false) := by
  by_cases hp : secpN ≤ b32_to_nat st0.scalar_buf ∨ b32_to_nat st0.scalar_buf % secpN = 0
  · rw [mul_eq_fail st0 hp] at h
    injection h with h2
    subst h2
    refine ⟨?_, fun _ => ⟨rfl, rfl, rfl⟩⟩
    simp only [Bool.false_eq_true, false_iff]
    rintro ⟨hone, hlt⟩
    rcases hp with hp | hp
    · exact absurd hp (Nat.not_le.mpr hlt)
    · rw [Nat.mod_eq_of_lt hlt] at hp
      omega
  · rw [mul_eq_succ st0 hp] at h
    injection h with h2
    subst h2
    push_neg at hp
    obtain ⟨hlt, hnz⟩ := hp
    rw [Nat.mod_eq_of_lt hlt] at hnz
    refine ⟨?_, ?_⟩
    · simp only [true_iff]
      exact ⟨Nat.one_le_iff_ne_zero.mpr hnz, hlt⟩
    · rintro (hc | hc)
      · rw [Nat.mod_eq_of_lt hlt] at hc
        exact absurd hc hnz
      · exact absurd hc (Nat.not_le.mpr hlt)

set_option maxRecDepth 40000 in
/-- Witness for C9: on the rejected order-valued scalar no kernel step runs. -/
theorem ecmult_guarded_witness :
    ((⟨0, { stOrder with s_cell := 0 }, false, false, false⟩ : MulEffects).called_ecmult = true ↔
        (1 ≤ b32_to_nat stOrder.scalar_buf ∧ b32_to_nat stOrder.scalar_buf < secpN)) ∧
      ((b32_to_nat stOrder.scalar_buf % secpN = 0 ∨ secpN ≤ b32_to_nat stOrder.scalar_buf) →
        (⟨0, { stOrder with s_cell := 0 }, false, false, false⟩ : MulEffects).called_ecmult = false ∧
          (⟨0, { stOrder with s_cell := 0 }, false, false, false⟩ : MulEffects).called_ge_set_gej = false ∧
          (⟨0, { stOrder with s_cell := 0 }, false, false, false⟩ : MulEffects).called_fe_get_b32 = false) :=
  ecmult_guarded stOrder ⟨0, { stOrder with s_cell := 0 }, false, false, false⟩ (by decide)

/-- C10: a returning call never modifies the caller-supplied inputs — the
scalar bytes, the point and the context object are unchanged — and its
return value is exactly 0 or 1. -/
theorem inputs_preserved (xn yn pn sn : Bool) (st0 : CallState) (e : MulEffects)
    (h : secp256k1_pubkey_scalar_mul xn yn pn sn st0 = CallOutcome.normal e) :
    e.st.scalar_buf = st0.scalar_buf ∧ e.st.point_buf = st0.point_buf ∧
      e.st.ctx_obj = st0.ctx_obj ∧ (e.ret = 0 ∨ e.ret = 1) := by
  obtain ⟨hx, hy, hp2, hs⟩ := mul_normal_nonnull xn yn pn sn st0 e h
  subst hx; subst hy; subst hp2; subst hs
  by_cases hp : secpN ≤ b32_to_nat st0.scalar_buf ∨ b32_to_nat st0.scalar_buf % secpN = 0
  · rw [mul_eq_fail st0 hp] at h
    injection h with h2
    subst h2
    exact ⟨rfl, rfl, rfl, Or.inl rfl⟩
  · rw [mul_eq_succ st0 hp] at h
    injection h with h2
    subst h2
    exact ⟨rfl, rfl, rfl, Or.inr rfl⟩

set_option maxRecDepth 40000 in
/-- Witness for C10: the rejected zero-scalar call leaves every input region unchanged. -/
theorem inputs_preserved_witness :
    (⟨0, { stZero with s_cell := 0 }, false, false, false⟩ : MulEffects).st.scalar_buf =
        stZero.scalar_buf ∧
      (⟨0, { stZero with s_cell := 0 }, false, false, false⟩ : MulEffects).st.point_buf =
        stZero.point_buf ∧
      (⟨0, { stZero with s_cell := 0 }, false, false, false⟩ : MulEffects).st.ctx_obj =
        stZero.ctx_obj ∧
      ((⟨0, { stZero with s_cell := 0 }, false, false, false⟩ : MulEffects).ret = 0 ∨
        (⟨0, { stZero with s_cell := 0 }, false, false, false⟩ : MulEffects).ret = 1) :=
  inputs_preserved false false false false stZero
    ⟨0, { stZero with s_cell := 0 }, false, false, false⟩ (by decide)
